import Mathlib

/-!
Verification of the VWAP mean-reversion backtesting engine.

This file is a shallow embedding, over `ℚ`, of the parts of the Python
sources (`src/indicators.py`, `src/signal_engine.py`, `src/risk_manager.py`,
`src/positions.py`, `src/execution_engine.py`, `src/backtest.py`) that the
verified properties are about, followed by theorems settling those
properties.

Modelling conventions:
* Python floats are modelled as rationals (`ℚ`); `int(x)` (truncation toward
  zero) is `ratTrunc`.
* `datetime` values are modelled by `Timestamp` (a calendar day number plus a
  minute-of-day); `(t2 - t1).total_seconds() / 60` is `minutesFrom t1 t2`.
* A rolling standard deviation `std` is represented by its square (the
  variance): squaring is a strictly monotone bijection on the nonnegative
  values involved, so every comparison, floor-at-epsilon and equality in the
  source translates exactly (`std == 0` ↔ `var == 0`, `std < 1e-4` ↔
  `var < 1e-8`, `std := 1e-8` ↔ `var := 1e-16`, initial `std = 1.0` ↔
  `var = 1`).  This keeps all definitions executable in `ℚ`.
* Mutating methods are modelled by state-passing functions returning the
  updated object (plus the Python return value where there is one).
-/

/-- Direction of an order or position; the Python sources use the strings
"LONG" and "SHORT". -/
inductive Direction where
  | LONG
  | SHORT
deriving DecidableEq, Repr

/-- A point in time: a calendar day number and a (rational) minute of that
day.  Mirrors what the sources use of `datetime`: `.date()` comparisons and
subtraction converted to minutes. -/
structure Timestamp where
  day : ℤ
  minuteOfDay : ℚ
deriving DecidableEq, Repr

/-- Minutes elapsed from `t1` to `t2`; the embedding of
`(t2 - t1).total_seconds() / 60`. -/
def minutesFrom (t1 t2 : Timestamp) : ℚ :=
  ((t2.day - t1.day : ℤ) : ℚ) * 1440 + (t2.minuteOfDay - t1.minuteOfDay)

/-- OHLCV bar (`indicators.Bar`).  The Python field `open` is called
`open_price` here because `open` is a Lean keyword. -/
structure Bar where
  timestamp : Timestamp
  open_price : ℚ
  high : ℚ
  low : ℚ
  close : ℚ
  volume : ℚ
deriving DecidableEq, Repr

/-- `Bar.typical_price`: (high + low + close) / 3. -/
def Bar.typical_price (b : Bar) : ℚ :=
  (b.high + b.low + b.close) / 3

/-- The flat strategy configuration (the dot-accessible config consumed by
the sources); only the fields the verified code paths read are included. -/
structure Config where
  signal_type : String
  exit_z : ℚ
  exit_pct : ℚ
  rolling_window : ℕ
  close_before_end_minutes : ℚ
  max_holding_minutes : ℚ
  commission_per_trade : ℚ
  slippage_bps : ℚ
  slippage_model : String
  volume_participation_limit_pct : ℚ
  daily_loss_limit_pct : ℚ
  max_position_risk_pct : ℚ
  max_total_positions : ℕ
  max_positions_per_symbol : ℕ
deriving Repr

/-- Python `int(q)`: truncation toward zero. -/
def ratTrunc (q : ℚ) : ℤ :=
  if 0 ≤ q then ⌊q⌋ else -⌊-q⌋

/-- `indicators.calculate_vwap(bars, use_typical_price)`: accumulate
typical_price×volume and volume over the given bars (skipping zero-volume
bars), divide, and fall back to the last bar's close when the accumulated
volume is zero.  (Python indexes `bars[-1]`; the empty-list fallback value 0
here corresponds to an input Python would reject with an IndexError and is
never used by the theorems.) -/
def calculate_vwap (bars : List Bar) (use_typical_price : Bool) : ℚ :=
  let acc := bars.foldl
    (fun (a : ℚ × ℚ) b =>
      let price := if use_typical_price then b.typical_price else b.close
      if 0 < b.volume then (a.1 + price * b.volume, a.2 + b.volume) else a)
    (0, 0)
  if 0 < acc.2 then acc.1 / acc.2
  else ((bars.getLast?).map Bar.close).getD 0

/-- The bounded FIFO window update both rolling-statistics updaters use:
append the new value, then `pop(0)` once if the length exceeds the window. -/
def pushWindow (history : List ℚ) (window : ℕ) (x : ℚ) : List ℚ :=
  let h := history ++ [x]
  if window < h.length then h.tail else h

/-- `np.mean` on a list of rationals. -/
def listMean (xs : List ℚ) : ℚ :=
  xs.sum / xs.length

/-- `np.std(xs) ** 2` (population variance, divisor n): the default
`ddof=0` used by `signal_engine.update_strategy_state`. -/
def popVar (xs : List ℚ) : ℚ :=
  ((xs.map (fun x => (x - listMean xs) ^ 2)).sum) / xs.length

/-- `np.std(xs, ddof=1) ** 2` (sample variance, divisor n−1), as used by
`indicators.update_rolling_stats`. -/
def sampleVar (xs : List ℚ) : ℚ :=
  ((xs.map (fun x => (x - listMean xs) ^ 2)).sum) / ((xs.length : ℚ) - 1)

/-- Sample variance as the specification describes it (divisor n−1),
written in the algebraically equivalent sum-of-squares form
(n·Σx² − (Σx)²) / (n·(n−1)); this is the reference definition the code's
computation is compared against. -/
def sampleVarSpec (xs : List ℚ) : ℚ :=
  ((xs.length : ℚ) * (xs.map (fun x => x ^ 2)).sum - xs.sum ^ 2) /
    ((xs.length : ℚ) * ((xs.length : ℚ) - 1))

/-- `indicators.update_rolling_stats`: push the current deviation into the
window, return the updated window together with (mean, std²).  With fewer
than 2 samples it returns (current_deviation, 0); otherwise the mean and the
sample variance (`ddof=1`), with an exactly-zero std replaced by 1e-8
(variance 1e-16). -/
def update_rolling_stats (deviation_history : List ℚ) (window : ℕ)
    (current_deviation : ℚ) : List ℚ × ℚ × ℚ :=
  let h := pushWindow deviation_history window current_deviation
  if h.length < 2 then (h, current_deviation, 0)
  else
    let mean := listMean h
    let var := sampleVar h
    let var := if var = 0 then 1 / 10 ^ 16 else var
    (h, mean, var)

/-- `risk_manager.calculate_position_size`: risk_per_share = |entry − stop|;
0 if that is ≤ 0; otherwise floor(capital·max_risk_pct/100 / risk_per_share)
(Python `int`, i.e. `ratTrunc`), replaced by floor(0.95·capital / entry) when
the notional exceeds 95% of capital, and floored at 0.  The `direction`
argument is accepted and never read, exactly as in the source. -/
def calculate_position_size (entry_price stop_loss : ℚ) (direction : Direction)
    (capital max_risk_pct : ℚ) : ℤ :=
  if |entry_price - stop_loss| ≤ 0 then 0
  else
    max 0
      (if capital * (95 / 100) <
          (ratTrunc (capital * (max_risk_pct / 100) / |entry_price - stop_loss|) : ℚ)
            * entry_price
       then ratTrunc (capital * (95 / 100) / entry_price)
       else ratTrunc (capital * (max_risk_pct / 100) / |entry_price - stop_loss|))

/-- `risk_manager.check_daily_risk_limit`: returns (False, 0) when the
daily P&L is strictly below −(initial_capital·limit_pct/100), else
(True, remaining buffer). -/
def check_daily_risk_limit (current_daily_pnl initial_capital
    daily_loss_limit_pct : ℚ) : Bool × ℚ :=
  let max_loss_amount := initial_capital * (daily_loss_limit_pct / 100)
  if current_daily_pnl < -max_loss_amount then (false, 0)
  else (true, max_loss_amount + current_daily_pnl)

/-- `positions.Position`: an open (and later closed) position.  Exit fields
are `Option`s that are populated at close; `commission` and `slippage` start
at 0.  `size` is the Python integer share count. -/
structure Position where
  symbol : String
  direction : Direction
  entry_price : ℚ
  entry_time : Timestamp
  entry_bar_idx : ℕ
  size : ℤ
  stop_loss : ℚ
  entry_vwap : ℚ
  entry_z : ℚ
  position_id : String
  exit_price : Option ℚ := none
  exit_time : Option Timestamp := none
  exit_reason : Option String := none
  realized_pnl : Option ℚ := none
  commission : ℚ := 0
  slippage : ℚ := 0
deriving DecidableEq, Repr

/-- `Position.is_stop_loss_hit`: LONG is stopped when bar.low ≤ stop,
SHORT when bar.high ≥ stop. -/
def Position.is_stop_loss_hit (p : Position) (bar : Bar) : Bool :=
  match p.direction with
  | Direction.LONG => decide (bar.low ≤ p.stop_loss)
  | Direction.SHORT => decide (p.stop_loss ≤ bar.high)

/-- `Position.close_position`: record the exit, double the per-side
commission AND the passed slippage ("Entry + Exit" in the source), compute
gross P&L by direction and the net realized P&L.  Returns the updated
position and the realized P&L (the Python return value). -/
def Position.close_position (p : Position) (exit_price : ℚ)
    (exit_time : Timestamp) (exit_reason : String)
    (commission slippage : ℚ) : Position × ℚ :=
  let commission2 := commission * 2
  let slippage2 := slippage * 2
  let gross_pnl :=
    match p.direction with
    | Direction.LONG => (exit_price - p.entry_price) * (p.size : ℚ)
    | Direction.SHORT => (p.entry_price - exit_price) * (p.size : ℚ)
  let realized := gross_pnl - commission2 - slippage2
  ({ p with
      exit_price := some exit_price
      exit_time := some exit_time
      exit_reason := some exit_reason
      commission := commission2
      slippage := slippage2
      realized_pnl := some realized },
   realized)

/-- `positions.DailyStats`. -/
structure DailyStats where
  date : Timestamp
  trades_count : ℕ := 0
  winning_trades : ℕ := 0
  losing_trades : ℕ := 0
  total_pnl : ℚ := 0
  gross_profit : ℚ := 0
  gross_loss : ℚ := 0
  commission_paid : ℚ := 0
  slippage_paid : ℚ := 0
deriving DecidableEq, Repr

/-- `DailyStats.update_from_position`: fold a freshly closed position into
the day's statistics (a no-op when the position has no realized P&L). -/
def DailyStats.update_from_position (ds : DailyStats) (p : Position) : DailyStats :=
  match p.realized_pnl with
  | none => ds
  | some pnl =>
    let ds := { ds with
      trades_count := ds.trades_count + 1
      total_pnl := ds.total_pnl + pnl
      commission_paid := ds.commission_paid + p.commission
      slippage_paid := ds.slippage_paid + p.slippage }
    if 0 < pnl then
      { ds with winning_trades := ds.winning_trades + 1
                gross_profit := ds.gross_profit + pnl }
    else
      { ds with losing_trades := ds.losing_trades + 1
                gross_loss := ds.gross_loss + |pnl| }

/-- Association-list lookup for the `daily_stats` date map. -/
def lookupStats (l : List (ℤ × DailyStats)) (d : ℤ) : Option DailyStats :=
  (l.find? (fun e => decide (e.1 = d))).map Prod.snd

/-- Update the entry for date `d` in the `daily_stats` map; a no-op when the
date is absent (Python guards with `if date_key in self.daily_stats`). -/
def updateStats (l : List (ℤ × DailyStats)) (d : ℤ)
    (f : DailyStats → DailyStats) : List (ℤ × DailyStats) :=
  l.map (fun e => if e.1 = d then (e.1, f e.2) else e)

/-- `positions.PositionManager` state.  The Python `open_positions` dict
(symbol → insertion-ordered list) is flattened into one insertion-ordered
list; per-symbol access filters on the `symbol` field, which preserves both
the per-symbol order and the global counts the source computes. -/
structure PositionManager where
  config : Config
  initial_capital : ℚ
  current_capital : ℚ
  open_positions : List Position
  closed_positions : List Position
  position_counter : ℕ
  current_date : Option Timestamp
  daily_stats : List (ℤ × DailyStats)
  daily_pnl : ℚ
  max_capital_deployed : ℚ
  total_commission_paid : ℚ
  total_slippage_paid : ℚ

/-- `PositionManager.__init__`. -/
def mkPositionManager (config : Config) (initial_capital : ℚ) : PositionManager :=
  { config := config
    initial_capital := initial_capital
    current_capital := initial_capital
    open_positions := []
    closed_positions := []
    position_counter := 0
    current_date := none
    daily_stats := []
    daily_pnl := 0
    max_capital_deployed := 0
    total_commission_paid := 0
    total_slippage_paid := 0 }

/-- `PositionManager.reset_daily_tracking`: on the first call or a date
change, set the current date, zero the daily P&L, and create the date's
`DailyStats` entry if missing; otherwise leave everything unchanged. -/
def PositionManager.reset_daily_tracking (pm : PositionManager)
    (current_date : Timestamp) : PositionManager :=
  let differs :=
    match pm.current_date with
    | none => true
    | some d => decide (current_date.day ≠ d.day)
  if differs then
    { pm with
        current_date := some current_date
        daily_pnl := 0
        daily_stats :=
          if (lookupStats pm.daily_stats current_date.day).isSome then
            pm.daily_stats
          else
            pm.daily_stats ++ [(current_date.day, { date := current_date })] }
  else pm

/-- `PositionManager.can_open_position`: daily loss limit (strict
comparison against −initial_capital·limit_pct/100), then total open-position
count, then per-symbol count. -/
def PositionManager.can_open_position (pm : PositionManager) (symbol : String) :
    Bool × String :=
  let loss_limit_amount := pm.initial_capital * (pm.config.daily_loss_limit_pct / 100)
  if pm.daily_pnl < -loss_limit_amount then (false, "daily_loss_limit_reached")
  else if pm.config.max_total_positions ≤ pm.open_positions.length then
    (false, "max_total_positions_reached")
  else if pm.config.max_positions_per_symbol ≤
      (pm.open_positions.filter (fun p => p.symbol == symbol)).length then
    (false, "max_positions_per_symbol_reached")
  else (true, "ok")

/-- `PositionManager.calculate_position_size` (the member version): same
formula as the standalone one, but reads `current_capital` and the config's
`max_position_risk_pct`; `symbol` and `direction` are accepted and unused. -/
def PositionManager.calculate_position_size (pm : PositionManager)
    (symbol : String) (entry_price stop_loss : ℚ) (direction : Direction) : ℤ :=
  if |entry_price - stop_loss| ≤ 0 then 0
  else
    max 0
      (if pm.current_capital * (95 / 100) <
          (ratTrunc (pm.current_capital * (pm.config.max_position_risk_pct / 100) /
              |entry_price - stop_loss|) : ℚ) * entry_price
       then ratTrunc (pm.current_capital * (95 / 100) / entry_price)
       else ratTrunc (pm.current_capital * (pm.config.max_position_risk_pct / 100) /
              |entry_price - stop_loss|))

/-- `PositionManager.open_position`: re-check `can_open_position`, compute
the size when not supplied, reject a nonpositive size, create the position
with a fresh id, append it to the open list and update
`max_capital_deployed`.  (The Python id also embeds a strftime of the entry
time; here the day and minute are appended, which preserves its content.) -/
def PositionManager.open_position (pm : PositionManager) (symbol : String)
    (direction : Direction) (entry_price : ℚ) (entry_time : Timestamp)
    (entry_bar_idx : ℕ) (stop_loss entry_vwap entry_z : ℚ)
    (size : Option ℤ) : PositionManager × Option Position :=
  if (pm.can_open_position symbol).1 then
    let sz := size.getD (pm.calculate_position_size symbol entry_price stop_loss direction)
    if sz ≤ 0 then (pm, none)
    else
      let position : Position :=
        { symbol := symbol
          direction := direction
          entry_price := entry_price
          entry_time := entry_time
          entry_bar_idx := entry_bar_idx
          size := sz
          stop_loss := stop_loss
          entry_vwap := entry_vwap
          entry_z := entry_z
          position_id := symbol ++ "_" ++ toString pm.position_counter ++ "_" ++
            toString entry_time.day ++ "_" ++ toString entry_time.minuteOfDay }
      ({ pm with
          position_counter := pm.position_counter + 1
          open_positions := pm.open_positions ++ [position]
          max_capital_deployed :=
            max pm.max_capital_deployed ((sz : ℚ) * entry_price) },
       some position)
  else (pm, none)

/-- `PositionManager._calculate_slippage`: both branches of the source (the
"bps" model and the volume fallback) compute the identical bps formula on
the entry and exit legs. -/
def PositionManager.calculate_slippage (pm : PositionManager)
    (position : Position) (exit_price : ℚ) : ℚ :=
  let entry_slippage :=
    position.entry_price * (position.size : ℚ) * (pm.config.slippage_bps / 10000)
  let exit_slippage :=
    exit_price * (position.size : ℚ) * (pm.config.slippage_bps / 10000)
  entry_slippage + exit_slippage

/-- `PositionManager.close_position`: default the commission to
`config.commission_per_trade` and the slippage to `_calculate_slippage`
when unspecified, close the position (which doubles both), update capital,
daily P&L, cost totals and the day's stats, move the position from the open
list to the closed list, and return the realized P&L. -/
def PositionManager.close_position (pm : PositionManager) (position : Position)
    (exit_price : ℚ) (exit_time : Timestamp) (exit_reason : String)
    (commission slippage : Option ℚ) : PositionManager × ℚ :=
  let commission := commission.getD pm.config.commission_per_trade
  let slippage := slippage.getD (pm.calculate_slippage position exit_price)
  let closed :=
    (position.close_position exit_price exit_time exit_reason commission slippage).1
  let realized_pnl :=
    (position.close_position exit_price exit_time exit_reason commission slippage).2
  ({ pm with
      current_capital := pm.current_capital + realized_pnl
      daily_pnl := pm.daily_pnl + realized_pnl
      total_commission_paid := pm.total_commission_paid + closed.commission
      total_slippage_paid := pm.total_slippage_paid + closed.slippage
      daily_stats :=
        match pm.current_date with
        | some d => updateStats pm.daily_stats d.day
            (fun ds => ds.update_from_position closed)
        | none => pm.daily_stats
      open_positions := pm.open_positions.erase position
      closed_positions := pm.closed_positions ++ [closed] },
   realized_pnl)

/-- `signal_engine.StrategyState`; `rolling_var_deviation` is the square of
the source's `rolling_std_deviation` (see the file header). -/
structure StrategyState where
  symbol : String
  last_exit_bar_idx : ℤ := -1
  bar_idx : ℕ := 0
  session_start : Option Timestamp := none
  session_end : Option Timestamp := none
  cum_pv : ℚ := 0
  cum_vol : ℚ := 0
  current_vwap : ℚ := 0
  deviation_history : List ℚ := []
  rolling_mean_deviation : ℚ := 0
  rolling_var_deviation : ℚ := 0
  volume_history : List ℚ := []
  atr_values : List ℚ := []
deriving DecidableEq, Repr

/-- `signal_engine.init_strategy_state`: fresh state; the std is
initialized to 1.0 (variance 1) "to avoid division by zero". -/
def init_strategy_state (symbol : String) (_config : Config) : StrategyState :=
  { symbol := symbol
    last_exit_bar_idx := -1
    bar_idx := 0
    session_start := none
    session_end := none
    cum_pv := 0
    cum_vol := 0
    current_vwap := 0
    deviation_history := []
    rolling_mean_deviation := 0
    rolling_var_deviation := 1
    volume_history := []
    atr_values := [] }

/-- `signal_engine.update_strategy_state`: record the VWAP, push the
deviation (close − vwap) into the bounded window, and when the window holds
at least 2 samples set the rolling mean and the rolling std via `np.std`
(population, divisor n) floored at 1e-4 (variance 1e-8); finally push the
bar's volume into the volume window. -/
def update_strategy_state (state : StrategyState) (bar : Bar) (vwap : ℚ)
    (config : Config) : StrategyState :=
  let deviation := bar.close - vwap
  let h := pushWindow state.deviation_history config.rolling_window deviation
  let state :=
    { state with current_vwap := vwap, deviation_history := h }
  let state :=
    if 2 ≤ h.length then
      let var := popVar h
      { state with
          rolling_mean_deviation := listMean h
          rolling_var_deviation := if var < 1 / 10 ^ 8 then 1 / 10 ^ 8 else var }
    else state
  { state with
      volume_history := pushWindow state.volume_history config.rolling_window bar.volume }

/-- The session-end condition of `signal_engine.check_exit_signal`: the
state's session end is set and (session_end − bar.timestamp) in minutes is
≤ config.close_before_end_minutes. -/
def timeExitCond (state : StrategyState) (bar : Bar) (config : Config) : Bool :=
  match state.session_end with
  | none => false
  | some se => decide (minutesFrom bar.timestamp se ≤ config.close_before_end_minutes)

/-- `signal_engine.check_exit_signal`: stop-loss, then the session-end time
exit, then the maximum holding period, then the signal-based exit (z-score
or percentage mode, by direction); first hit wins. -/
def check_exit_signal (position : Position) (bar : Bar)
    (z_score pct_deviation : ℚ) (config : Config) (state : StrategyState) :
    Bool × String :=
  if position.is_stop_loss_hit bar then (true, "stop_loss")
  else if timeExitCond state bar config then (true, "time_exit")
  else if config.max_holding_minutes ≤ minutesFrom position.entry_time bar.timestamp then
    (true, "max_hold")
  else if config.signal_type = "zscore" then
    if position.direction = Direction.LONG ∧ -config.exit_z ≤ z_score then
      (true, "z_score_exit")
    else if position.direction = Direction.SHORT ∧ z_score ≤ config.exit_z then
      (true, "z_score_exit")
    else (false, "")
  else
    if position.direction = Direction.LONG ∧ -config.exit_pct ≤ pct_deviation then
      (true, "pct_exit")
    else if position.direction = Direction.SHORT ∧ pct_deviation ≤ config.exit_pct then
      (true, "pct_exit")
    else (false, "")

/-- `execution_engine.Order`. -/
structure Order where
  symbol : String
  direction : Direction
  order_type : String
  size : ℤ
  timestamp : Timestamp
  limit_price : Option ℚ := none
  stop_price : Option ℚ := none
deriving DecidableEq, Repr

/-- `execution_engine.Fill`. -/
structure Fill where
  order : Order
  fill_price : ℚ
  fill_time : Timestamp
  slippage : ℚ
  commission : ℚ
  fill_size : ℤ
deriving DecidableEq, Repr

/-- `execution_engine.simulate_fill_price`: the "bps" model applies the
configured bps adversely to the direction; the "volume" model scales the bps
by (1 + participation/limit) when the order's volume participation exceeds
the configured limit; any other model returns the base price unchanged. -/
def simulate_fill_price (order : Order) (bar : Bar) (base_price : ℚ)
    (config : Config) : ℚ :=
  if config.slippage_model = "bps" then
    let slippage_pct := config.slippage_bps / 10000
    match order.direction with
    | Direction.LONG => base_price * (1 + slippage_pct)
    | Direction.SHORT => base_price * (1 - slippage_pct)
  else if config.slippage_model = "volume" then
    let participation_pct :=
      if 0 < bar.volume then ((order.size : ℚ) / bar.volume) * 100 else 0
    let slippage_pct :=
      if config.volume_participation_limit_pct < participation_pct then
        (config.slippage_bps / 10000) *
          (1 + participation_pct / config.volume_participation_limit_pct)
      else config.slippage_bps / 10000
    match order.direction with
    | Direction.LONG => base_price * (1 + slippage_pct)
    | Direction.SHORT => base_price * (1 - slippage_pct)
  else base_price

/-- `execution_engine.apply_slippage`: |fill − base| × size. -/
def apply_slippage (order : Order) (_bar : Bar) (base_price fill_price : ℚ)
    (_config : Config) : ℚ :=
  |fill_price - base_price| * (order.size : ℚ)

/-- `execution_engine.apply_commission`: the flat per-trade amount. -/
def apply_commission (_order : Order) (_fill_price : ℚ) (config : Config) : ℚ :=
  config.commission_per_trade

/-- `execution_engine.fill_market_order`: base price is the bar's close
(realistic) or open (optimistic), slippage model applied via
`simulate_fill_price`, dollar slippage and commission computed, and a `Fill`
built whose `fill_size` is the order's size and whose `fill_time` is the
bar's timestamp. -/
def fill_market_order (order : Order) (bar : Bar) (config : Config)
    (use_realistic_fills : Bool) : Fill :=
  let base_fill_price := if use_realistic_fills then bar.close else bar.open_price
  let fill_price := simulate_fill_price order bar base_fill_price config
  { order := order
    fill_price := fill_price
    fill_time := bar.timestamp
    slippage := apply_slippage order bar base_fill_price fill_price config
    commission := apply_commission order fill_price config
    fill_size := order.size }

/-- The VWAP value `backtest.run_backtest` uses at bar index `i`:
`calculate_vwap(bars[:i+1])` over the symbol's ENTIRE loaded bar list
(line 188 of `src/backtest.py`). -/
def backtest_vwap_used (bars : List Bar) (i : ℕ) : ℚ :=
  calculate_vwap (bars.take (i + 1)) true

/-- The VWAP the specification claims the orchestrator uses at bar `i`:
the same cumulative computation restricted to the bars of the CURRENT
session (same calendar date as bar `i`).  This definition follows the
spec's words and exists to be compared with `backtest_vwap_used`. -/
def session_vwap_claimed (bars : List Bar) (i : ℕ) : ℚ :=
  match bars[i]? with
  | none => 0
  | some b =>
    calculate_vwap
      ((bars.take (i + 1)).filter
        (fun x => decide (x.timestamp.day = b.timestamp.day))) true

/-- Sum of the recorded realized P&L over a list of (closed) positions. -/
def sumRealized (ps : List Position) : ℚ :=
  (ps.map (fun p => p.realized_pnl.getD 0)).sum

/-- The capital-conservation invariant: current capital equals the initial
capital plus the realized P&L of every closed position. -/
def capInvariant (pm : PositionManager) : Prop :=
  pm.current_capital = pm.initial_capital + sumRealized pm.closed_positions

/-- A concrete configuration used by the concrete-input theorems (values
taken from the sources' own `__main__` test blocks). -/
def cfgEx : Config :=
  { signal_type := "zscore"
    exit_z := 3 / 10
    exit_pct := 5 / 10000
    rolling_window := 20
    close_before_end_minutes := 15
    max_holding_minutes := 180
    commission_per_trade := 1
    slippage_bps := 5
    slippage_model := "bps"
    volume_participation_limit_pct := 10
    daily_loss_limit_pct := 3
    max_position_risk_pct := 1
    max_total_positions := 5
    max_positions_per_symbol := 1 }

/-- A concrete open LONG position: 10 shares at 100, stop 99. -/
def posEx : Position :=
  { symbol := "SPY"
    direction := Direction.LONG
    entry_price := 100
    entry_time := ⟨0, 600⟩
    entry_bar_idx := 10
    size := 10
    stop_loss := 99
    entry_vwap := 100
    entry_z := -2
    position_id := "SPY_0_0_600" }

/-- A concrete manager holding `posEx`. -/
def pmEx : PositionManager :=
  { mkPositionManager cfgEx 100000 with open_positions := [posEx] }

/-- Two bars on two different calendar days (typical prices 10 and 20, each
with volume 100): the concrete input on which the orchestrator's VWAP is
shown to mix sessions. -/
def barsEx : List Bar :=
  [ { timestamp := ⟨0, 570⟩, open_price := 10, high := 10, low := 10,
      close := 10, volume := 100 },
    { timestamp := ⟨1, 570⟩, open_price := 20, high := 20, low := 20,
      close := 20, volume := 100 } ]

/-- A concrete bar for the exit-priority counterexample: it does not touch
the stop of `posEx` (low 100 > stop 99). -/
def barC3 : Bar :=
  { timestamp := ⟨0, 800⟩, open_price := 101, high := 102, low := 100,
    close := 101, volume := 1000 }

/-- State whose session end is 10 minutes after `barC3` (inside the
15-minute close window). -/
def stateC3 : StrategyState :=
  { init_strategy_state "SPY" cfgEx with session_end := some ⟨0, 810⟩ }

/-- Strategy state holding one deviation sample, for the rolling-std
counterexample. -/
def stateC6 : StrategyState :=
  { init_strategy_state "SPY" cfgEx with deviation_history := [0] }

/-- Bar whose close is 2, used with vwap 0 so the new deviation sample
is 2. -/
def barC6 : Bar :=
  { timestamp := ⟨0, 600⟩, open_price := 2, high := 2, low := 2,
    close := 2, volume := 50 }

/-- Config for the volume-slippage counterexample: 100 bps base slippage,
10% participation limit. -/
def cfgC5 : Config :=
  { cfgEx with slippage_model := "volume", slippage_bps := 100 }

/-- Order of 20 shares (20% participation against `barC5`'s volume 100). -/
def orderC5 : Order :=
  { symbol := "SPY"
    direction := Direction.LONG
    order_type := "MARKET"
    size := 20
    timestamp := ⟨0, 600⟩ }

/-- Bar with volume 100 for the volume-slippage counterexample. -/
def barC5 : Bar :=
  { timestamp := ⟨0, 600⟩, open_price := 100, high := 101, low := 99,
    close := 100, volume := 100 }

/-- C1 (code_bug evidence): at the second bar of `barsEx` (the first bar of a
NEW session), the VWAP `run_backtest` uses is computed over the whole loaded
history and equals 15, while the session-only VWAP the claim (and the spec's
session-reset rule) describes equals 20: a bar of the earlier session
contributes. -/
theorem vwap_uses_prior_session_bars :
    backtest_vwap_used barsEx 1 = 15 ∧ session_vwap_claimed barsEx 1 = 20 ∧
      (15 : ℚ) ≠ 20 := by
  refine ⟨?_, ?_, by norm_num⟩
  · norm_num [backtest_vwap_used, calculate_vwap, barsEx, Bar.typical_price,
      List.foldl_cons, List.foldl_nil, List.take]
  · norm_num [session_vwap_claimed, calculate_vwap, barsEx, Bar.typical_price,
      List.foldl_cons, List.foldl_nil, List.take, List.filter]

/-- C2 (code_bug evidence): closing the 10-share LONG `posEx` (entry 100) at
101 with commission and slippage unspecified records commission 2 (= 2 ×
commission_per_trade, as claimed) but slippage 2 × (100·10·5/10000 +
101·10·5/10000) = 2.01 — twice the entry+exit bps cost the claim states —
because `_calculate_slippage` already returns the entry+exit total and
`Position.close_position` doubles it again; the realized P&L 5.99 is net of
the doubled value. -/
theorem close_position_slippage_double_counted :
    (PositionManager.close_position pmEx posEx 101 ⟨0, 630⟩ "signal_exit"
        none none).1.closed_positions.map
        (fun p => (p.commission, p.slippage, p.realized_pnl)) =
      [(2 * cfgEx.commission_per_trade,
        2 * (100 * 10 * (5 / 10000) + 101 * 10 * (5 / 10000)),
        some ((101 - 100) * 10 - 2 * cfgEx.commission_per_trade -
          2 * (100 * 10 * (5 / 10000) + 101 * 10 * (5 / 10000))))] ∧
    (2 * (100 * 10 * (5 / 10000) + 101 * 10 * (5 / 10000)) : ℚ) ≠
      100 * 10 * (5 / 10000) + 101 * 10 * (5 / 10000) := by
  constructor
  · norm_num [PositionManager.close_position, PositionManager.calculate_slippage,
      Position.close_position, pmEx, posEx, cfgEx, mkPositionManager]
  · norm_num

/-- C9 (confirmed): the standalone `calculate_position_size` returns the
same size for LONG and for SHORT at every input — the direction argument has
no influence on the result. -/
theorem calculate_position_size_direction_agnostic :
    ∀ (entry_price stop_loss capital max_risk_pct : ℚ),
      calculate_position_size entry_price stop_loss Direction.LONG capital max_risk_pct =
        calculate_position_size entry_price stop_loss Direction.SHORT capital max_risk_pct :=
  fun _ _ _ _ => rfl

/-- C10 (confirmed): every market-order fill has fill_size equal to the
order's size and fill_time equal to the bar's timestamp, for every order,
bar, configuration (hence every slippage model and bar volume) and fill
mode — no partial fills. -/
theorem fill_market_order_full_size :
    ∀ (o : Order) (b : Bar) (cfg : Config) (r : Bool),
      (fill_market_order o b cfg r).fill_size = o.size ∧
        (fill_market_order o b cfg r).fill_time = b.timestamp :=
  fun _ _ _ _ => ⟨rfl, rfl⟩

/-- C4 (counterexample): at exactly the daily loss limit
(daily_pnl = −3000 = −(100000·3/100)) the code still returns
can_trade = True, whereas the claim says can_trade = False exactly when
daily_pnl ≤ −(initial_capital·limit_pct/100). -/
theorem daily_risk_limit_boundary_cex :
    (check_daily_risk_limit (-3000) 100000 3).1 = true ∧
      (-3000 : ℚ) ≤ -(100000 * (3 / 100)) := by
  constructor
  · norm_num [check_daily_risk_limit]
  · norm_num

/-- C4 (amended): `check_daily_risk_limit` returns can_trade = False exactly
when daily_pnl is STRICTLY below −(initial_capital·limit_pct/100) (with
buffer 0); otherwise it returns can_trade = True with buffer
initial_capital·limit_pct/100 + daily_pnl; and `can_open_position` applies
the same strict daily-loss threshold (it reports daily_loss_limit_reached
exactly when daily_pnl is strictly below the same amount). -/
theorem check_daily_risk_limit_strict :
    ∀ (d c p : ℚ),
      ((check_daily_risk_limit d c p).1 = false ↔ d < -(c * (p / 100))) ∧
      (-(c * (p / 100)) ≤ d →
        check_daily_risk_limit d c p = (true, c * (p / 100) + d)) ∧
      ∀ (pm : PositionManager) (sym : String),
        (pm.daily_pnl <
            -(pm.initial_capital * (pm.config.daily_loss_limit_pct / 100)) →
          pm.can_open_position sym = (false, "daily_loss_limit_reached")) ∧
        (-(pm.initial_capital * (pm.config.daily_loss_limit_pct / 100)) ≤
            pm.daily_pnl →
          (pm.can_open_position sym).2 ≠ "daily_loss_limit_reached") := by
  intro d c p
  refine ⟨?_, ?_, ?_⟩
  · simp only [check_daily_risk_limit]
    split_ifs with h <;> simp [h]
  · intro h
    simp only [check_daily_risk_limit]
    rw [if_neg (by linarith)]
  · intro pm sym
    constructor
    · intro h
      simp only [PositionManager.can_open_position]
      rw [if_pos h]
    · intro h
      simp only [PositionManager.can_open_position]
      rw [if_neg (not_lt.mpr h)]
      split
      · simp
      · split <;> simp

/-- C4 (witness): the claim's own examples, via the amended theorem:
daily_pnl = −2500 with capital 100000 and limit 3% gives (True, 500), and
−3500 gives (False, 0). -/
theorem check_daily_risk_limit_strict_witness :
    check_daily_risk_limit (-2500) 100000 3 = (true, 500) ∧
      check_daily_risk_limit (-3500) 100000 3 = (false, 0) := by
  constructor
  · have h := (check_daily_risk_limit_strict (-2500) 100000 3).2.1 (by norm_num)
    norm_num at h ⊢
    exact h
  · have h := ((check_daily_risk_limit_strict (-3500) 100000 3).1).mpr (by norm_num)
    simp only [check_daily_risk_limit] at h ⊢
    split_ifs at h ⊢ with hc
    rfl

/-- C5 (counterexample): with the "volume" model, base slippage 100 bps and
participation limit 10%, an order of 20 shares against a bar of volume 100
(participation 20% > 10%) fills at 103 = 100·(1 + 0.01·(1 + 20/10)), not at
the claimed 100·(1 + 0.01·(20/10)) = 102: the code scales the bps by
(1 + participation/limit), not by (participation/limit). -/
theorem volume_slippage_scaling_cex :
    simulate_fill_price orderC5 barC5 100 cfgC5 = 103 ∧
      (103 : ℚ) ≠
        100 * (1 + (cfgC5.slippage_bps / 10000) *
          (((orderC5.size : ℚ) / barC5.volume) * 100 /
            cfgC5.volume_participation_limit_pct)) := by
  constructor
  · norm_num [simulate_fill_price, orderC5, barC5, cfgC5, cfgEx]
    decide
  · norm_num [orderC5, barC5, cfgC5, cfgEx]

/-- C5 (amended): under the "volume" slippage model with positive bar
volume, when participation = size/volume·100 exceeds the configured limit
the fill price is base·(1 ± (slippage_bps/10000)·(1 + participation/limit))
with the sign adverse to the direction (LONG pays more, SHORT receives
less); when participation does not exceed the limit the base slippage_bps
applies unscaled. -/
theorem simulate_fill_price_volume_model :
    ∀ (o : Order) (b : Bar) (bp : ℚ) (cfg : Config),
      cfg.slippage_model = "volume" → 0 < b.volume →
      (cfg.volume_participation_limit_pct < ((o.size : ℚ) / b.volume) * 100 →
        simulate_fill_price o b bp cfg =
          (match o.direction with
           | Direction.LONG =>
               bp * (1 + (cfg.slippage_bps / 10000) *
                 (1 + ((o.size : ℚ) / b.volume) * 100 /
                   cfg.volume_participation_limit_pct))
           | Direction.SHORT =>
               bp * (1 - (cfg.slippage_bps / 10000) *
                 (1 + ((o.size : ℚ) / b.volume) * 100 /
                   cfg.volume_participation_limit_pct)))) ∧
      (((o.size : ℚ) / b.volume) * 100 ≤ cfg.volume_participation_limit_pct →
        simulate_fill_price o b bp cfg =
          match o.direction with
          | Direction.LONG => bp * (1 + cfg.slippage_bps / 10000)
          | Direction.SHORT => bp * (1 - cfg.slippage_bps / 10000)) := by
  intro o b bp cfg hmodel hvol
  have hbps : cfg.slippage_model ≠ "bps" := by
    rw [hmodel]; decide
  constructor
  · intro hpart
    simp only [simulate_fill_price, if_neg hbps, if_pos hmodel, if_pos hvol,
      if_pos hpart]
  · intro hpart
    simp only [simulate_fill_price, if_neg hbps, if_pos hmodel, if_pos hvol,
      if_neg (not_lt.mpr hpart)]

/-- C5 (witness): the amended formula evaluated at the concrete
high-participation LONG order (20 shares, volume 100, 100 bps, limit 10%)
gives 103, and at participation at most the limit the base bps applies. -/
theorem simulate_fill_price_volume_model_witness :
    simulate_fill_price orderC5 barC5 100 cfgC5 = 103 := by
  have h := (simulate_fill_price_volume_model orderC5 barC5 100 cfgC5
    (by decide) (by norm_num [barC5])).1
    (by norm_num [cfgC5, cfgEx, orderC5, barC5])
  rw [h]
  norm_num [orderC5, barC5, cfgC5, cfgEx]

/-- C3 (counterexample): a bar that does not touch the stop, taken 200
minutes after entry (max holding 180) while the session end is 10 minutes
away (close window 15): the code returns the session-end tag "time_exit",
not the claimed max-hold tag — the session-end check precedes the max-hold
check. -/
theorem exit_priority_time_before_max_hold_cex :
    check_exit_signal posEx barC3 0 0 cfgEx stateC3 = (true, "time_exit") ∧
      posEx.is_stop_loss_hit barC3 = false ∧
      cfgEx.max_holding_minutes ≤ minutesFrom posEx.entry_time barC3.timestamp ∧
      ("time_exit" : String) ≠ "max_hold" := by
  refine ⟨?_, ?_, ?_, by decide⟩
  · norm_num [check_exit_signal, posEx, barC3, cfgEx, stateC3,
      Position.is_stop_loss_hit, timeExitCond, minutesFrom, init_strategy_state]
  · norm_num [Position.is_stop_loss_hit, posEx, barC3]
  · norm_num [cfgEx, minutesFrom, posEx, barC3]

/-- C3 (amended): `check_exit_signal` evaluates its conditions in the fixed
priority order stop-loss, session-end time exit, maximum holding time,
strategy exit signal (first true wins): if the stop is hit the reason is
"stop_loss"; if the stop is not hit and the session-end condition holds the
reason is "time_exit"; and whenever the stop is not hit, the session-end
condition does NOT hold and the holding time is at least
max_holding_minutes, the reason is "max_hold" regardless of any signal
condition. -/
theorem check_exit_signal_priority :
    ∀ (p : Position) (b : Bar) (z pd : ℚ) (cfg : Config) (s : StrategyState),
      (p.is_stop_loss_hit b = true →
        check_exit_signal p b z pd cfg s = (true, "stop_loss")) ∧
      (p.is_stop_loss_hit b = false → timeExitCond s b cfg = true →
        check_exit_signal p b z pd cfg s = (true, "time_exit")) ∧
      (p.is_stop_loss_hit b = false → timeExitCond s b cfg = false →
        cfg.max_holding_minutes ≤ minutesFrom p.entry_time b.timestamp →
        check_exit_signal p b z pd cfg s = (true, "max_hold")) := by
  intro p b z pd cfg s
  refine ⟨?_, ?_, ?_⟩
  · intro h
    simp [check_exit_signal, h]
  · intro h1 h2
    simp [check_exit_signal, h1, h2]
  · intro h1 h2 h3
    simp [check_exit_signal, h1, h2, h3]

/-- C3 (witness): the amended priority applied at the concrete
counterexample input with the session-end condition absent: the same
overheld position exits with "max_hold" when the session end is far away. -/
theorem check_exit_signal_priority_witness :
    check_exit_signal posEx barC3 0 0 cfgEx (init_strategy_state "SPY" cfgEx) =
      (true, "max_hold") := by
  refine (check_exit_signal_priority posEx barC3 0 0 cfgEx
    (init_strategy_state "SPY" cfgEx)).2.2 ?_ ?_ ?_
  · norm_num [Position.is_stop_loss_hit, posEx, barC3]
  · rfl
  · norm_num [cfgEx, minutesFrom, posEx, barC3]

/-- Expansion of a sum of squared deviations about an arbitrary center. -/
theorem sum_sq_dev (xs : List ℚ) (m : ℚ) :
    (xs.map (fun x => (x - m) ^ 2)).sum =
      (xs.map (fun x => x ^ 2)).sum - 2 * m * xs.sum + (xs.length : ℚ) * m ^ 2 := by
  induction xs with
  | nil => simp
  | cons a l ih =>
    simp only [List.map_cons, List.sum_cons, List.length_cons, ih]
    push_cast
    ring

/-- The mean-centered sample variance with divisor n−1 (what
`np.std(·, ddof=1)**2` computes) agrees with the spec's sample variance in
sum-of-squares form, for windows of at least 2 samples. -/
theorem sampleVar_eq_sampleVarSpec (xs : List ℚ) (h2 : 2 ≤ xs.length) :
    sampleVar xs = sampleVarSpec xs := by
  have hn : (2 : ℚ) ≤ (xs.length : ℚ) := by exact_mod_cast h2
  have h0 : (xs.length : ℚ) ≠ 0 := by linarith
  have h1 : (xs.length : ℚ) - 1 ≠ 0 := by
    intro hcon
    have : (xs.length : ℚ) = 1 := by linarith
    linarith
  unfold sampleVar sampleVarSpec listMean
  rw [sum_sq_dev]
  field_simp
  ring

/-- C6 (counterexample): starting from a window holding the single
deviation 0, a bar with close 2 against vwap 0 makes the window [0, 2];
`update_strategy_state` then records variance 1 (population, divisor n)
while `update_rolling_stats` records 2, the spec's sample variance
(divisor n−1) — so the two stds differ (1 = 1² vs 2 = (√2)²) and the claim
that both use the n−1 divisor is false. -/
theorem rolling_std_divisor_cex :
    (update_strategy_state stateC6 barC6 0 cfgEx).rolling_var_deviation = 1 ∧
      (update_rolling_stats [(0 : ℚ)] 20 2).2.2 = 2 ∧
      sampleVarSpec [(0 : ℚ), 2] = 2 ∧ (1 : ℚ) ≠ 2 := by
  refine ⟨?_, ?_, ?_, by norm_num⟩
  · norm_num [update_strategy_state, stateC6, barC6, cfgEx, init_strategy_state,
      pushWindow, popVar, listMean]
  · norm_num [update_rolling_stats, pushWindow, sampleVar, listMean]
  · norm_num [sampleVarSpec]

/-- C6 (amended): on windows with at least 2 samples,
`update_rolling_stats` computes the SAMPLE standard deviation (divisor
n−1, as the spec's formula prescribes; an exactly-zero std becomes 1e-8),
while `update_strategy_state` computes the POPULATION standard deviation
(divisor n) floored at 1e-4; with fewer than 2 samples the former returns
std 0 and the latter leaves the previous std unchanged.  (Stds are
represented by their squares.) -/
theorem rolling_std_divisors :
    (∀ (h : List ℚ) (w : ℕ) (x : ℚ),
      2 ≤ (pushWindow h w x).length → sampleVarSpec (pushWindow h w x) ≠ 0 →
      (update_rolling_stats h w x).2.2 = sampleVarSpec (pushWindow h w x)) ∧
    (∀ (s : StrategyState) (b : Bar) (v : ℚ) (c : Config),
      2 ≤ (pushWindow s.deviation_history c.rolling_window (b.close - v)).length →
      1 / 10 ^ 8 ≤ popVar (pushWindow s.deviation_history c.rolling_window (b.close - v)) →
      (update_strategy_state s b v c).rolling_var_deviation =
        popVar (pushWindow s.deviation_history c.rolling_window (b.close - v))) ∧
    (∀ (h : List ℚ) (w : ℕ) (x : ℚ),
      (pushWindow h w x).length < 2 → (update_rolling_stats h w x).2.2 = 0) ∧
    (∀ (s : StrategyState) (b : Bar) (v : ℚ) (c : Config),
      (pushWindow s.deviation_history c.rolling_window (b.close - v)).length < 2 →
      (update_strategy_state s b v c).rolling_var_deviation =
        s.rolling_var_deviation) := by
  refine ⟨?_, ?_, ?_, ?_⟩
  · intro h w x h2 hne
    have heq := sampleVar_eq_sampleVarSpec (pushWindow h w x) h2
    simp only [update_rolling_stats, if_neg (not_lt.mpr h2), heq, if_neg hne]
  · intro s b v c h2 hge
    simp only [update_strategy_state, if_pos h2, if_neg (not_lt.mpr hge)]
  · intro h w x hlt
    simp only [update_rolling_stats, if_pos hlt]
  · intro s b v c hlt
    simp only [update_strategy_state, if_neg (not_le.mpr hlt)]

/-- C6 (witness): the amended statement applied at the concrete window
[0] + sample 2: `update_rolling_stats` yields exactly the spec's sample
variance of [0, 2]. -/
theorem rolling_std_divisors_witness :
    (update_rolling_stats [(0 : ℚ)] 20 2).2.2 =
      sampleVarSpec (pushWindow [(0 : ℚ)] 20 2) := by
  refine rolling_std_divisors.1 [(0 : ℚ)] 20 2 ?_ ?_
  · norm_num [pushWindow]
  · norm_num [sampleVarSpec, pushWindow]

/-- Python `int` truncation agrees with the floor on nonnegative inputs. -/
theorem ratTrunc_eq_floor (q : ℚ) (h : 0 ≤ q) : ratTrunc q = ⌊q⌋ :=
  if_pos h

/-- Normal form of `calculate_position_size` on its sensible domain
(positive entry, nonnegative capital and risk percentage, positive stop
distance): the minimum of the risk-based floor and the 95%-notional cap. -/
theorem calculate_position_size_eq_min (e s : ℚ) (dir : Direction) (c p : ℚ)
    (he : 0 < e) (hc : 0 ≤ c) (hp : 0 ≤ p) (hd : 0 < |e - s|) :
    calculate_position_size e s dir c p =
      min ⌊c * (p / 100) / |e - s|⌋ ⌊c * (95 / 100) / e⌋ := by
  have hmra : 0 ≤ c * (p / 100) := mul_nonneg hc (div_nonneg hp (by norm_num))
  have hps0 : 0 ≤ c * (p / 100) / |e - s| := div_nonneg hmra hd.le
  have hcap0 : 0 ≤ c * (95 / 100) / e :=
    div_nonneg (mul_nonneg hc (by norm_num)) he.le
  simp only [calculate_position_size, if_neg (not_le.mpr hd)]
  rw [ratTrunc_eq_floor _ hps0, ratTrunc_eq_floor _ hcap0]
  by_cases hbr : c * (95 / 100) < (⌊c * (p / 100) / |e - s|⌋ : ℚ) * e
  · rw [if_pos hbr]
    have h1 : c * (95 / 100) / e < (⌊c * (p / 100) / |e - s|⌋ : ℚ) := by
      rw [div_lt_iff₀ he]; exact hbr
    have h2 : ⌊c * (95 / 100) / e⌋ < ⌊c * (p / 100) / |e - s|⌋ := by
      have hq := lt_of_le_of_lt (Int.floor_le (c * (95 / 100) / e)) h1
      exact_mod_cast hq
    rw [max_eq_right (Int.floor_nonneg.mpr hcap0)]
    exact (min_eq_right h2.le).symm
  · rw [if_neg hbr]
    push_neg at hbr
    have h1 : (⌊c * (p / 100) / |e - s|⌋ : ℚ) ≤ c * (95 / 100) / e :=
      (le_div_iff₀ he).mpr hbr
    have h2 : ⌊c * (p / 100) / |e - s|⌋ ≤ ⌊c * (95 / 100) / e⌋ :=
      Int.le_floor.mpr h1
    rw [max_eq_right (Int.floor_nonneg.mpr hps0)]
    exact (min_eq_left h2).symm

/-- C7 (confirmed, on the domain the claim fixes: positive entry price,
nonnegative capital and risk percentage): position sizing is monotone
non-increasing in the stop distance; the returned size is always ≥ 0; it
is 0 whenever the risk per share |entry − stop| is ≤ 0; and the position
notional never exceeds 95% of capital. -/
theorem position_size_monotone_and_capped :
    (∀ (e s1 s2 : ℚ) (dir : Direction) (c p : ℚ),
      0 < e → 0 ≤ c → 0 ≤ p → 0 < |e - s1| → |e - s1| ≤ |e - s2| →
      calculate_position_size e s2 dir c p ≤ calculate_position_size e s1 dir c p) ∧
    (∀ (e s : ℚ) (dir : Direction) (c p : ℚ),
      0 ≤ calculate_position_size e s dir c p) ∧
    (∀ (e s : ℚ) (dir : Direction) (c p : ℚ),
      |e - s| ≤ 0 → calculate_position_size e s dir c p = 0) ∧
    (∀ (e s : ℚ) (dir : Direction) (c p : ℚ),
      0 < e → 0 ≤ c → 0 ≤ p →
      (calculate_position_size e s dir c p : ℚ) * e ≤ c * (95 / 100)) := by
  refine ⟨?_, ?_, ?_, ?_⟩
  · intro e s1 s2 dir c p he hc hp hd1 h12
    have hd2 : 0 < |e - s2| := lt_of_lt_of_le hd1 h12
    rw [calculate_position_size_eq_min e s1 dir c p he hc hp hd1,
        calculate_position_size_eq_min e s2 dir c p he hc hp hd2]
    have hmra : 0 ≤ c * (p / 100) := mul_nonneg hc (div_nonneg hp (by norm_num))
    refine min_le_min (Int.floor_le_floor ?_) le_rfl
    gcongr
  · intro e s dir c p
    simp only [calculate_position_size]
    split
    · exact le_refl 0
    · exact le_max_left 0 _
  · intro e s dir c p hd
    simp only [calculate_position_size, if_pos hd]
  · intro e s dir c p he hc hp
    by_cases hd : 0 < |e - s|
    · rw [calculate_position_size_eq_min e s dir c p he hc hp hd]
      have h1 : min ⌊c * (p / 100) / |e - s|⌋ ⌊c * (95 / 100) / e⌋ ≤
          ⌊c * (95 / 100) / e⌋ := min_le_right _ _
      calc ((min ⌊c * (p / 100) / |e - s|⌋ ⌊c * (95 / 100) / e⌋ : ℤ) : ℚ) * e ≤
            (⌊c * (95 / 100) / e⌋ : ℚ) * e := by
              apply mul_le_mul_of_nonneg_right _ he.le
              exact_mod_cast h1
        _ ≤ (c * (95 / 100) / e) * e :=
              mul_le_mul_of_nonneg_right (Int.floor_le _) he.le
        _ = c * (95 / 100) := div_mul_cancel₀ _ (ne_of_gt he)
    · push_neg at hd
      simp only [calculate_position_size, if_pos hd]
      have : (0 : ℚ) ≤ c * (95 / 100) := mul_nonneg hc (by norm_num)
      simpa using this

/-- C7 (witness): with entry 100, capital 100000, risk 1%, widening the
stop from 99 (distance 1, size 500... in fact 950 after the cap) to 98
(distance 2, size 500) does not increase the size. -/
theorem position_size_monotone_and_capped_witness :
    calculate_position_size 100 98 Direction.LONG 100000 1 ≤
      calculate_position_size 100 99 Direction.LONG 100000 1 := by
  refine position_size_monotone_and_capped.1 100 99 98 Direction.LONG 100000 1
    ?_ ?_ ?_ ?_ ?_ <;> norm_num

/-- Realized P&L sums distribute over appending a closed position. -/
theorem sumRealized_append (l : List Position) (p : Position) :
    sumRealized (l ++ [p]) = sumRealized l + p.realized_pnl.getD 0 := by
  simp [sumRealized]

/-- C8 (confirmed): the capital-conservation invariant
current_capital = initial_capital + Σ realized_pnl(closed_positions) holds
for a fresh manager and is preserved by every operation: `open_position`
never changes current_capital or the closed list; `close_position` changes
current_capital by exactly the realized P&L it returns, which is exactly
the realized P&L recorded on the position it appends to the closed list;
and `reset_daily_tracking` changes neither. -/
theorem capital_conservation :
    (∀ (cfg : Config) (cap0 : ℚ), capInvariant (mkPositionManager cfg cap0)) ∧
    (∀ (pm : PositionManager) (sym : String) (dir : Direction) (ep : ℚ)
        (et : Timestamp) (ebi : ℕ) (sl ev ez : ℚ) (sz : Option ℤ),
      (pm.open_position sym dir ep et ebi sl ev ez sz).1.current_capital =
          pm.current_capital ∧
        (pm.open_position sym dir ep et ebi sl ev ez sz).1.closed_positions =
          pm.closed_positions ∧
        (capInvariant pm →
          capInvariant (pm.open_position sym dir ep et ebi sl ev ez sz).1)) ∧
    (∀ (pm : PositionManager) (pos : Position) (ep : ℚ) (et : Timestamp)
        (er : String) (co sl : Option ℚ),
      (pm.close_position pos ep et er co sl).1.current_capital =
          pm.current_capital + (pm.close_position pos ep et er co sl).2 ∧
        (∃ q : Position,
          (pm.close_position pos ep et er co sl).1.closed_positions =
              pm.closed_positions ++ [q] ∧
            q.realized_pnl = some (pm.close_position pos ep et er co sl).2) ∧
        (capInvariant pm →
          capInvariant (pm.close_position pos ep et er co sl).1)) ∧
    (∀ (pm : PositionManager) (d : Timestamp),
      (pm.reset_daily_tracking d).current_capital = pm.current_capital ∧
        (pm.reset_daily_tracking d).closed_positions = pm.closed_positions ∧
        (capInvariant pm → capInvariant (pm.reset_daily_tracking d))) := by
  refine ⟨?_, ?_, ?_, ?_⟩
  · intro cfg cap0
    simp [capInvariant, mkPositionManager, sumRealized]
  · intro pm sym dir ep et ebi sl ev ez sz
    simp only [PositionManager.open_position]
    split
    · split
      · exact ⟨rfl, rfl, fun h => h⟩
      · exact ⟨rfl, rfl, fun h => h⟩
    · exact ⟨rfl, rfl, fun h => h⟩
  · intro pm pos ep et er co sl
    refine ⟨rfl, ⟨(pos.close_position ep et er
        (co.getD pm.config.commission_per_trade)
        (sl.getD (pm.calculate_slippage pos ep))).1, rfl, rfl⟩, ?_⟩
    intro h
    simp only [capInvariant, PositionManager.close_position] at h ⊢
    rw [sumRealized_append, h]
    simp only [Position.close_position, Option.getD_some]
    ring
  · intro pm d
    simp only [PositionManager.reset_daily_tracking]
    split
    · exact ⟨rfl, rfl, fun h => h⟩
    · exact ⟨rfl, rfl, fun h => h⟩

/-- C8 (witness): the invariant after closing the concrete position
`posEx` on the concrete manager `pmEx` (whose invariant holds by
evaluation). -/
theorem capital_conservation_witness :
    capInvariant (PositionManager.close_position pmEx posEx 101 ⟨0, 630⟩
      "signal_exit" none none).1 :=
  (capital_conservation.2.2.1 pmEx posEx 101 ⟨0, 630⟩ "signal_exit"
      none none).2.2
    (by simp [capInvariant, pmEx, mkPositionManager, sumRealized])
